import Mathlib

/-!
# pid_simulator: the PID controller and the mechanical plant

A shallow embedding of `src/js/pid-controller.js`, `src/js/plant-models.js` and the
body of the fixed-timestep loop of `src/js/main.js`.

JavaScript numbers are modelled as exact rationals `ℚ`; mutable objects become
records and every method returns the mutated record next to its return value.
Two places divide: `PIDController.update` divides by `deltaTime` only after the
`deltaTime <= 0` guard, and `MechanicalSystem.update` divides by `_inertia`
(in `ℚ` a division by zero is `0`, so statements about the plant carry a
nonzero inertia).
-/

namespace PidSimulator

/-! ## pid-controller.js -/

/-- The fields of the class `PIDController`. -/
structure PIDController where
  _Kp : ℚ
  _Ki : ℚ
  _Kd : ℚ
  _proportionalTerm : ℚ
  _integralTerm : ℚ
  _derivativeTerm : ℚ
  _lastError : ℚ
  _lastProcessVariable : ℚ
  _outputMin : ℚ
  _outputMax : ℚ
  _alpha : ℚ
deriving DecidableEq

/-- The `options` object of the constructor; an absent key is `none`. -/
structure PIDOptions where
  outputMin : Option ℚ
  outputMax : Option ℚ
  alpha : Option ℚ
deriving DecidableEq

/-- The default `options = {}`. -/
def PIDOptions.empty : PIDOptions := ⟨none, none, none⟩

/-- The class field initialisers, run before the constructor body. -/
def PIDController.fieldDefaults : PIDController where
  _Kp := 1
  _Ki := 0
  _Kd := 0
  _proportionalTerm := 0
  _integralTerm := 0
  _derivativeTerm := 0
  _lastError := 0
  _lastProcessVariable := 0
  _outputMin := -100
  _outputMax := 100
  _alpha := 1 / 10

/-- The method `setGains(Kp, Ki, Kd)`. -/
def PIDController.setGains (c : PIDController) (Kp Ki Kd : ℚ) : PIDController :=
  { c with _Kp := Kp, _Ki := Ki, _Kd := Kd }

/-- The body of `constructor(Kp, Ki, Kd, options)`; `a ?? b` is `Option.getD a b`. -/
def PIDController.new (Kp Ki Kd : ℚ) (options : PIDOptions) : PIDController :=
  let c := PIDController.fieldDefaults.setGains Kp Ki Kd
  let c := { c with _outputMin := options.outputMin.getD c._outputMin }
  let c := { c with _outputMax := options.outputMax.getD c._outputMax }
  { c with _alpha := options.alpha.getD c._alpha }

/-- The only error the specification names for construction. -/
inductive ConfigError where
  | invalidConfig
deriving DecidableEq

/-- The expression `new PIDController(Kp, Ki, Kd, options)` as a computation that
may throw: the constructor body contains no `throw`, so it always completes. -/
def PIDController.construct (Kp Ki Kd : ℚ) (options : PIDOptions) :
    Except ConfigError PIDController :=
  Except.ok (PIDController.new Kp Ki Kd options)

/-- The method `update(setpoint, processVariable, deltaTime)`: the returned number
and the controller after the call. -/
def PIDController.update (c : PIDController) (setpoint processVariable deltaTime : ℚ) :
    ℚ × PIDController :=
  if deltaTime ≤ 0 then
    (c._proportionalTerm + c._integralTerm + c._derivativeTerm, c)
  else
    let error := setpoint - processVariable
    let c := { c with _proportionalTerm := c._Kp * error }
    let pvDerivative := (processVariable - c._lastProcessVariable) / deltaTime
    let c := { c with
      _derivativeTerm := c._derivativeTerm * (1 - c._alpha) - (c._Kd * pvDerivative * c._alpha) }
    let potentialOutput := c._proportionalTerm + c._integralTerm + c._derivativeTerm
    let c :=
      if potentialOutput < c._outputMax ∧ potentialOutput > c._outputMin then
        { c with _integralTerm := c._integralTerm + c._Ki * error * deltaTime }
      else c
    let output := c._proportionalTerm + c._integralTerm + c._derivativeTerm
    let output := max c._outputMin (min c._outputMax output)
    let c := { c with _lastError := error }
    let c := { c with _lastProcessVariable := processVariable }
    (output, c)

/-- The method `reset()`. -/
def PIDController.reset (c : PIDController) : PIDController :=
  { c with _integralTerm := 0, _lastError := 0, _lastProcessVariable := 0, _derivativeTerm := 0 }

/-- A call of one of the two methods the shell uses between resets. -/
inductive ControllerCall where
  | update (setpoint processVariable deltaTime : ℚ)
  | setGains (Kp Ki Kd : ℚ)

/-- The controller after one call. -/
def PIDController.call (c : PIDController) : ControllerCall → PIDController
  | .update sp pv dt => (c.update sp pv dt).2
  | .setGains Kp Ki Kd => c.setGains Kp Ki Kd

/-- The controller after a finite sequence of calls, first call first. -/
def PIDController.calls (c : PIDController) : List ControllerCall → PIDController
  | [] => c
  | k :: ks => (c.call k).calls ks

/-! ## plant-models.js -/

/-- The object `state` of a `MechanicalSystem`. -/
structure PlantState where
  position : ℚ
  velocity : ℚ
deriving DecidableEq

/-- The fields of the class `MechanicalSystem`. -/
structure MechanicalSystem where
  _inertia : ℚ
  _friction : ℚ
  _load : ℚ
  state : PlantState
  _disturbance : ℚ
deriving DecidableEq

/-- The `params` object of the constructor. -/
structure PlantParams where
  inertia : ℚ
  friction : ℚ
  load : ℚ
  initialPosition : Option ℚ
  autoEquilibrium : Bool
deriving DecidableEq

/-- The body of `constructor(params)`. `a ?? 0` keeps every number, `a || 0`
replaces the falsy number `0` by `0`. -/
def MechanicalSystem.new (params : PlantParams) : MechanicalSystem :=
  let position :=
    if params.autoEquilibrium then params.initialPosition.getD 0
    else
      match params.initialPosition with
      | some p => if p = 0 then 0 else p
      | none => 0
  { _inertia := params.inertia
    _friction := params.friction
    _load := params.load
    state := { position := position, velocity := 0 }
    _disturbance := 0 }

/-- The expression `new MechanicalSystem(params)` as a computation that may throw:
the constructor body contains no `throw`, so it always completes. -/
def MechanicalSystem.construct (params : PlantParams) : Except ConfigError MechanicalSystem :=
  Except.ok (MechanicalSystem.new params)

/-- The method `update(controlOutput, dt)`: the returned `state` object and the
plant after the call. -/
def MechanicalSystem.update (m : MechanicalSystem) (controlOutput dt : ℚ) :
    PlantState × MechanicalSystem :=
  let frictionForce := -m._friction * m.state.velocity
  let loadForce := -m._load
  let netForce := controlOutput + m._disturbance + frictionForce + loadForce
  let acceleration := netForce / m._inertia
  let m := { m with state := { m.state with velocity := m.state.velocity + acceleration * dt } }
  let m := { m with state := { m.state with position := m.state.position + m.state.velocity * dt } }
  (m.state, m)

/-- The method `setDisturbance(value)`. -/
def MechanicalSystem.setDisturbance (m : MechanicalSystem) (value : ℚ) : MechanicalSystem :=
  { m with _disturbance := value }

/-- The method `reset()`. -/
def MechanicalSystem.reset (m : MechanicalSystem) : MechanicalSystem :=
  { m with state := { m.state with velocity := 0 }, _disturbance := 0 }

/-- The plant after a sequence of `update(controlOutput, dt)` calls with one control
output and the listed timesteps. -/
def MechanicalSystem.updates (m : MechanicalSystem) (controlOutput : ℚ) :
    List ℚ → MechanicalSystem
  | [] => m
  | dt :: dts => (m.update controlOutput dt).2.updates controlOutput dts

/-! ## main.js: the body of the `while` loop of `simulationLoop` -/

/-- The part of `SimulationApp` the loop body reads and writes. -/
structure SimulationApp where
  plant : MechanicalSystem
  pid : PIDController
  setpoint : ℚ
deriving DecidableEq

/-- One pass through the body of the `while` loop of `simulationLoop`, with
`timestep` standing for `config.SIMULATION_TIMESTEP_S`; the chart and the DOM
are not modelled. -/
def SimulationApp.loopBody (app : SimulationApp) (timestep : ℚ) : SimulationApp :=
  let pv := app.plant.state.position
  let r := app.pid.update app.setpoint pv timestep
  let mv := r.1
  let app := { app with pid := r.2 }
  { app with plant := (app.plant.update mv timestep).2 }

/-- The loop body run `n` times. -/
def SimulationApp.iterate (timestep : ℚ) : Nat → SimulationApp → SimulationApp
  | 0, app => app
  | n + 1, app => SimulationApp.iterate timestep n (app.loopBody timestep)

/-- The damped scenario: the preset `pid_damped` on the plant of `main.js`. -/
def dampedScenario : SimulationApp where
  plant := MechanicalSystem.new
    { inertia := 1, friction := 1 / 5, load := 20, initialPosition := none,
      autoEquilibrium := false }
  pid := PIDController.new (3 / 2) (1 / 2) (7 / 2)
    { outputMin := some (-100), outputMax := some 100, alpha := some (1 / 10) }
  setpoint := 80


/-! ## Auxiliary facts about `update` -/

/-- The filtered derivative term computed by `update` when `0 < deltaTime`. -/
theorem update_derivativeTerm_of_pos (c : PIDController) (sp pv dt : ℚ) (hdt : 0 < dt) :
    (c.update sp pv dt).2._derivativeTerm =
      c._derivativeTerm * (1 - c._alpha) - c._Kd * ((pv - c._lastProcessVariable) / dt) * c._alpha := by
  simp only [PIDController.update, if_neg (not_le.mpr hdt)]
  split_ifs <;> rfl

/-- The proportional term stored by `update` when `0 < deltaTime`. -/
theorem update_proportionalTerm_of_pos (c : PIDController) (sp pv dt : ℚ) (hdt : 0 < dt) :
    (c.update sp pv dt).2._proportionalTerm = c._Kp * (sp - pv) := by
  simp only [PIDController.update, if_neg (not_le.mpr hdt)]
  split_ifs <;> rfl

/-- The value `update` returns when `0 < deltaTime` is the clamped sum of the stored terms. -/
theorem update_output_of_pos (c : PIDController) (sp pv dt : ℚ) (hdt : 0 < dt) :
    (c.update sp pv dt).1 =
      max c._outputMin (min c._outputMax
        ((c.update sp pv dt).2._proportionalTerm + (c.update sp pv dt).2._integralTerm
          + (c.update sp pv dt).2._derivativeTerm)) := by
  simp only [PIDController.update, if_neg (not_le.mpr hdt)]
  split_ifs <;> rfl

/-- The method `update` never writes the gains, the limits or the filter coefficient. -/
theorem update_config (c : PIDController) (sp pv dt : ℚ) :
    (c.update sp pv dt).2._Kp = c._Kp ∧ (c.update sp pv dt).2._Ki = c._Ki ∧
    (c.update sp pv dt).2._Kd = c._Kd ∧ (c.update sp pv dt).2._outputMin = c._outputMin ∧
    (c.update sp pv dt).2._outputMax = c._outputMax ∧ (c.update sp pv dt).2._alpha = c._alpha := by
  simp only [PIDController.update]
  split_ifs <;> simp

/-- After `reset()`, a call of `update` with `0 < deltaTime` returns the same value and leaves
the same controller as the same call on a new controller with the same configuration: the
proportional term, the one field `reset()` keeps, is overwritten before it is read. -/
theorem reset_update_eq_new_update (c : PIDController) (sp pv dt : ℚ) (hdt : 0 < dt) :
    c.reset.update sp pv dt =
      (PIDController.new c._Kp c._Ki c._Kd
        ⟨some c._outputMin, some c._outputMax, some c._alpha⟩).update sp pv dt := by
  simp only [PIDController.update, if_neg (not_le.mpr hdt), PIDController.reset,
    PIDController.new, PIDController.setGains, PIDController.fieldDefaults, Option.getD_some]

/-- With inertia 1, no friction, no disturbance and zero velocity, a control output equal to
the load leaves the plant as it is. -/
theorem plant_update_balanced (L p0 dt : ℚ) :
    ((MechanicalSystem.mk 1 0 L ⟨p0, 0⟩ 0).update L dt).2 = MechanicalSystem.mk 1 0 L ⟨p0, 0⟩ 0 := by
  simp [MechanicalSystem.update]

/-! ## The claims -/

/-- C1: for a controller with `outputMin < outputMax` and every setpoint, measured value
and `dt > 0`, the value returned by `update` lies in `[outputMin, outputMax]`. -/
theorem update_output_clamped (c : PIDController) (setpoint measuredValue dt : ℚ)
    (hlim : c._outputMin < c._outputMax) (hdt : 0 < dt) :
    c._outputMin ≤ (c.update setpoint measuredValue dt).1 ∧
      (c.update setpoint measuredValue dt).1 ≤ c._outputMax := by
  rw [update_output_of_pos c setpoint measuredValue dt hdt]
  exact ⟨le_max_left _ _, max_le hlim.le (min_le_left _ _)⟩

/-- Witness of C1 on the default controller with setpoint 200. -/
theorem update_output_clamped_witness :
    PIDController.fieldDefaults._outputMin < PIDController.fieldDefaults._outputMax ∧
    (0 : ℚ) < 1 ∧
    PIDController.fieldDefaults._outputMin ≤ (PIDController.fieldDefaults.update 200 0 1).1 ∧
      (PIDController.fieldDefaults.update 200 0 1).1 ≤ PIDController.fieldDefaults._outputMax :=
  ⟨by decide!, by decide!,
    update_output_clamped PIDController.fieldDefaults 200 0 1 (by decide!) (by decide!)⟩

/-- C2: for `dt > 0`, with `candidate = Kp·(setpoint − measuredValue) + integralTerm_before +
derivativeTerm_after`: if `outputMin < candidate < outputMax` the integral term grows by
`Ki·(setpoint − measuredValue)·dt`, and if `candidate ≤ outputMin` or `candidate ≥ outputMax`
it keeps its value. -/
theorem update_integral_antiwindup (c : PIDController) (setpoint measuredValue dt : ℚ)
    (hdt : 0 < dt) :
    (c._outputMin <
        c._Kp * (setpoint - measuredValue) + c._integralTerm
          + (c.update setpoint measuredValue dt).2._derivativeTerm ∧
      c._Kp * (setpoint - measuredValue) + c._integralTerm
          + (c.update setpoint measuredValue dt).2._derivativeTerm < c._outputMax →
      (c.update setpoint measuredValue dt).2._integralTerm =
        c._integralTerm + c._Ki * (setpoint - measuredValue) * dt) ∧
    (c._Kp * (setpoint - measuredValue) + c._integralTerm
          + (c.update setpoint measuredValue dt).2._derivativeTerm ≤ c._outputMin ∨
      c._outputMax ≤ c._Kp * (setpoint - measuredValue) + c._integralTerm
          + (c.update setpoint measuredValue dt).2._derivativeTerm →
      (c.update setpoint measuredValue dt).2._integralTerm = c._integralTerm) := by
  rw [update_derivativeTerm_of_pos c setpoint measuredValue dt hdt]
  simp only [PIDController.update, if_neg (not_le.mpr hdt)]
  constructor
  · rintro ⟨hlo, hhi⟩
    rw [if_pos ⟨hhi, hlo⟩]
  · intro h
    rw [if_neg]
    rintro ⟨hhi, hlo⟩
    rcases h with h | h
    · exact absurd hlo (not_lt.mpr h)
    · exact absurd hhi (not_lt.mpr h)

/-- Witness of C2 on the default controller with `Ki` set to 1, once inside the limits
(setpoint 10) and once saturated (setpoint 200). -/
theorem update_integral_antiwindup_witness :
    (0 : ℚ) < 1 ∧
    ((PIDController.fieldDefaults.setGains 1 1 0).update 10 0 1).2._integralTerm = 10 ∧
    ((PIDController.fieldDefaults.setGains 1 1 0).update 200 0 1).2._integralTerm = 0 :=
  ⟨by decide!,
    ((update_integral_antiwindup (PIDController.fieldDefaults.setGains 1 1 0) 10 0 1
      (by decide!)).1 (by decide!)).trans (by decide!),
    ((update_integral_antiwindup (PIDController.fieldDefaults.setGains 1 1 0) 200 0 1
      (by decide!)).2 (by decide!)).trans (by decide!)⟩

/-- C3: for a plant with `inertia > 0`, `update(controlOutput, dt)` sets
`velocity' = velocity + ((controlOutput + disturbance − friction·velocity − load) / inertia)·dt`
and `position' = position + velocity'·dt`, returns that state, leaves inertia, friction, load
and disturbance unchanged, and with `dt = 0` leaves position and velocity unchanged. -/
theorem plant_update_euler (m : MechanicalSystem) (controlOutput dt : ℚ)
    (hinertia : 0 < m._inertia) :
    (m.update controlOutput dt).2.state.velocity =
        m.state.velocity +
          ((controlOutput + m._disturbance - m._friction * m.state.velocity - m._load)
            / m._inertia) * dt ∧
    (m.update controlOutput dt).2.state.position =
        m.state.position + (m.update controlOutput dt).2.state.velocity * dt ∧
    (m.update controlOutput dt).1 = (m.update controlOutput dt).2.state ∧
    (m.update controlOutput dt).2._inertia = m._inertia ∧
    (m.update controlOutput dt).2._friction = m._friction ∧
    (m.update controlOutput dt).2._load = m._load ∧
    (m.update controlOutput dt).2._disturbance = m._disturbance ∧
    (m.update controlOutput 0).2.state = m.state ∧
    (m.update controlOutput 0).1 = m.state := by
  have _ := hinertia
  refine ⟨?_, rfl, rfl, rfl, rfl, rfl, rfl, ?_, ?_⟩
  · simp only [MechanicalSystem.update]
    ring
  · simp [MechanicalSystem.update]
  · simp [MechanicalSystem.update]

/-- Witness of C3 on the plant of `main.js` pushed with control output 100 for 1/25 s. -/
theorem plant_update_euler_witness :
    (0 : ℚ) < (MechanicalSystem.new ⟨1, 1 / 5, 20, none, false⟩)._inertia ∧
    ((MechanicalSystem.new ⟨1, 1 / 5, 20, none, false⟩).update 100 (1 / 25)).2.state.velocity
      = 16 / 5 :=
  ⟨by decide!,
    (plant_update_euler (MechanicalSystem.new ⟨1, 1 / 5, 20, none, false⟩) 100 (1 / 25)
      (by decide!)).1.trans (by decide!)⟩

/-- C4: for `dt ≤ 0`, `update` changes no field of the controller and returns
`proportionalTerm + integralTerm + derivativeTerm` of the stored terms. -/
theorem update_nonpos_dt_noop (c : PIDController) (setpoint measuredValue dt : ℚ)
    (hdt : dt ≤ 0) :
    (c.update setpoint measuredValue dt).2 = c ∧
    (c.update setpoint measuredValue dt).1 =
      c._proportionalTerm + c._integralTerm + c._derivativeTerm := by
  simp only [PIDController.update, if_pos hdt, and_self]

/-- Witness of C4: a controller that has stored terms, called with `dt = -1`. -/
theorem update_nonpos_dt_noop_witness :
    (-1 : ℚ) ≤ 0 ∧
    (((PIDController.new 2 1 0 PIDOptions.empty).update 10 0 1).2.update 3 7 (-1)).2 =
      ((PIDController.new 2 1 0 PIDOptions.empty).update 10 0 1).2 ∧
    (((PIDController.new 2 1 0 PIDOptions.empty).update 10 0 1).2.update 3 7 (-1)).1 = 30 :=
  ⟨by decide!,
    (update_nonpos_dt_noop ((PIDController.new 2 1 0 PIDOptions.empty).update 10 0 1).2 3 7 (-1)
      (by decide!)).1,
    (update_nonpos_dt_noop ((PIDController.new 2 1 0 PIDOptions.empty).update 10 0 1).2 3 7 (-1)
      (by decide!)).2.trans (by decide!)⟩

/-- C5: for `dt > 0` and two setpoints `s1`, `s2`, the derivative term and the stored last
process variable after `update(s1, measuredValue, dt)` equal those after
`update(s2, measuredValue, dt)` from the same state. -/
theorem update_derivative_ignores_setpoint (c : PIDController) (measuredValue dt s1 s2 : ℚ)
    (hdt : 0 < dt) :
    (c.update s1 measuredValue dt).2._derivativeTerm =
        (c.update s2 measuredValue dt).2._derivativeTerm ∧
    (c.update s1 measuredValue dt).2._lastProcessVariable =
        (c.update s2 measuredValue dt).2._lastProcessVariable := by
  constructor
  · rw [update_derivativeTerm_of_pos c s1 measuredValue dt hdt,
      update_derivativeTerm_of_pos c s2 measuredValue dt hdt]
  · simp only [PIDController.update, if_neg (not_le.mpr hdt)]

/-- Witness of C5: setpoints 0 and 1000 on a controller with `Kd = 7/2` that has seen a
measurement of 5. -/
theorem update_derivative_ignores_setpoint_witness :
    (0 : ℚ) < 1 / 25 ∧
    (((PIDController.new 1 0 (7 / 2) PIDOptions.empty).update 0 5 1).2.update 0 6 (1 / 25)).2._derivativeTerm
      = (((PIDController.new 1 0 (7 / 2) PIDOptions.empty).update 0 5 1).2.update 1000 6 (1 / 25)).2._derivativeTerm ∧
    (((PIDController.new 1 0 (7 / 2) PIDOptions.empty).update 0 5 1).2.update 0 6 (1 / 25)).2._lastProcessVariable
      = (((PIDController.new 1 0 (7 / 2) PIDOptions.empty).update 0 5 1).2.update 1000 6 (1 / 25)).2._lastProcessVariable :=
  ⟨by decide!,
    update_derivative_ignores_setpoint
      ((PIDController.new 1 0 (7 / 2) PIDOptions.empty).update 0 5 1).2 6 (1 / 25) 0 1000
      (by decide!)⟩

/-- C6, as stated, fails: after `update(1, 0, 1)` on a new controller with `Kp = 1` and then
`reset()`, the call `update(1, 0, 0)` returns the kept proportional term 1, while the same call
on a new controller with the same gains, limits and filter coefficient returns 0. -/
theorem reset_then_update_zero_dt_differs :
    ((((PIDController.new 1 0 0 PIDOptions.empty).calls
        [ControllerCall.update 1 0 1]).reset).update 1 0 0).1 = 1 ∧
    ((PIDController.new 1 0 0 ⟨some (-100), some 100, some (1 / 10)⟩).update 1 0 0).1 = 0 ∧
    ((PIDController.new 1 0 0 PIDOptions.empty).calls [ControllerCall.update 1 0 1])._Kp = 1 ∧
    ((PIDController.new 1 0 0 PIDOptions.empty).calls [ControllerCall.update 1 0 1])._Ki = 0 ∧
    ((PIDController.new 1 0 0 PIDOptions.empty).calls [ControllerCall.update 1 0 1])._Kd = 0 ∧
    ((PIDController.new 1 0 0 PIDOptions.empty).calls
        [ControllerCall.update 1 0 1])._outputMin = -100 ∧
    ((PIDController.new 1 0 0 PIDOptions.empty).calls
        [ControllerCall.update 1 0 1])._outputMax = 100 ∧
    ((PIDController.new 1 0 0 PIDOptions.empty).calls
        [ControllerCall.update 1 0 1])._alpha = 1 / 10 := by
  decide!

/-- C6, amended: for every controller reached from construction by a finite sequence of
`update` and `setGains` calls, after `reset()` the integral term is 0 and, for every setpoint,
measured value and `dt > 0`, the next `update` returns the same output as the same call on a
newly constructed controller with the same gains, limits and filter coefficient; `reset()`
leaves gains and limits untouched. -/
theorem reset_then_update_matches_new (Kp Ki Kd : ℚ) (options : PIDOptions)
    (ks : List ControllerCall) (setpoint measuredValue dt : ℚ) (hdt : 0 < dt) :
    (((PIDController.new Kp Ki Kd options).calls ks).reset)._integralTerm = 0 ∧
    ((((PIDController.new Kp Ki Kd options).calls ks).reset).update setpoint measuredValue dt).1 =
      ((PIDController.new ((PIDController.new Kp Ki Kd options).calls ks)._Kp
          ((PIDController.new Kp Ki Kd options).calls ks)._Ki
          ((PIDController.new Kp Ki Kd options).calls ks)._Kd
          ⟨some ((PIDController.new Kp Ki Kd options).calls ks)._outputMin,
            some ((PIDController.new Kp Ki Kd options).calls ks)._outputMax,
            some ((PIDController.new Kp Ki Kd options).calls ks)._alpha⟩).update
        setpoint measuredValue dt).1 ∧
    (((PIDController.new Kp Ki Kd options).calls ks).reset)._Kp =
      ((PIDController.new Kp Ki Kd options).calls ks)._Kp ∧
    (((PIDController.new Kp Ki Kd options).calls ks).reset)._Ki =
      ((PIDController.new Kp Ki Kd options).calls ks)._Ki ∧
    (((PIDController.new Kp Ki Kd options).calls ks).reset)._Kd =
      ((PIDController.new Kp Ki Kd options).calls ks)._Kd ∧
    (((PIDController.new Kp Ki Kd options).calls ks).reset)._outputMin =
      ((PIDController.new Kp Ki Kd options).calls ks)._outputMin ∧
    (((PIDController.new Kp Ki Kd options).calls ks).reset)._outputMax =
      ((PIDController.new Kp Ki Kd options).calls ks)._outputMax ∧
    (((PIDController.new Kp Ki Kd options).calls ks).reset)._alpha =
      ((PIDController.new Kp Ki Kd options).calls ks)._alpha :=
  ⟨rfl, congrArg Prod.fst (reset_update_eq_new_update _ setpoint measuredValue dt hdt),
    rfl, rfl, rfl, rfl, rfl, rfl⟩

/-- Witness of the amended C6: a controller that saturated, was retuned and integrated, then
reset, answers `update(10, 0, 1/25)` with 76/5 as a new one does. -/
theorem reset_then_update_matches_new_witness :
    (0 : ℚ) < 1 / 25 ∧
    ((((PIDController.new 1 0 0 PIDOptions.empty).calls
        [ControllerCall.update 200 0 1, ControllerCall.setGains (3 / 2) (1 / 2) (7 / 2),
          ControllerCall.update 10 1 1]).reset).update 10 0 (1 / 25)).1 = 76 / 5 ∧
    ((PIDController.new (3 / 2) (1 / 2) (7 / 2) ⟨some (-100), some 100, some (1 / 10)⟩).update
        10 0 (1 / 25)).1 = 76 / 5 :=
  ⟨by decide!,
    (reset_then_update_matches_new 1 0 0 PIDOptions.empty
      [ControllerCall.update 200 0 1, ControllerCall.setGains (3 / 2) (1 / 2) (7 / 2),
        ControllerCall.update 10 1 1] 10 0 (1 / 25) (by decide!)).2.1.trans (by decide!),
    by decide!⟩

/-- C7: for a plant with inertia 1, friction 0, load `L`, disturbance 0, velocity 0 and
position `p0`, after the calls `update(L, dt_i)` for any finite sequence of timesteps the
velocity is still 0 and the position is still `p0`. -/
theorem plant_equilibrium (L p0 : ℚ) (dts : List ℚ) :
    ((MechanicalSystem.mk 1 0 L ⟨p0, 0⟩ 0).updates L dts).state.velocity = 0 ∧
    ((MechanicalSystem.mk 1 0 L ⟨p0, 0⟩ 0).updates L dts).state.position = p0 := by
  have hfix : (MechanicalSystem.mk 1 0 L ⟨p0, 0⟩ 0).updates L dts
      = MechanicalSystem.mk 1 0 L ⟨p0, 0⟩ 0 := by
    induction dts with
    | nil => rfl
    | cons dt dts ih => rw [MechanicalSystem.updates, plant_update_balanced, ih]
  rw [hfix]
  exact ⟨rfl, rfl⟩

/-- C8, as stated, fails: the constructor accepts `outputMin = 5 ≥ outputMax = -5` with filter
coefficient 2, and the plant constructor accepts inertia 0 and inertia -1; the objects
obtained hold these values. -/
theorem construct_accepts_invalid_config :
    PIDController.construct 1 0 0 ⟨some 5, some (-5), some 2⟩ =
      Except.ok (PIDController.new 1 0 0 ⟨some 5, some (-5), some 2⟩) ∧
    (PIDController.new 1 0 0 ⟨some 5, some (-5), some 2⟩)._outputMin ≥
      (PIDController.new 1 0 0 ⟨some 5, some (-5), some 2⟩)._outputMax ∧
    ¬ (0 < (PIDController.new 1 0 0 ⟨some 5, some (-5), some 2⟩)._alpha ∧
        (PIDController.new 1 0 0 ⟨some 5, some (-5), some 2⟩)._alpha ≤ 1) ∧
    MechanicalSystem.construct ⟨0, 0, 0, none, false⟩ =
      Except.ok (MechanicalSystem.new ⟨0, 0, 0, none, false⟩) ∧
    (MechanicalSystem.new ⟨0, 0, 0, none, false⟩)._inertia ≤ 0 ∧
    MechanicalSystem.construct ⟨-1, 0, 0, none, false⟩ =
      Except.ok (MechanicalSystem.new ⟨-1, 0, 0, none, false⟩) ∧
    (MechanicalSystem.new ⟨-1, 0, 0, none, false⟩)._inertia ≤ 0 :=
  ⟨rfl, by decide!, by decide!, rfl, by decide!, rfl, by decide!⟩

/-- C8, amended: construction does not validate its configuration. Constructing a
PIDController never fails and stores `outputMin`, `outputMax` and the filter coefficient as
given in the options (−100, 100 and 1/10 for an absent key), whatever their order or range;
constructing the plant never fails and stores the given inertia, whatever its sign. -/
theorem construct_never_fails (Kp Ki Kd : ℚ) (options : PIDOptions) (params : PlantParams) :
    (PIDController.construct Kp Ki Kd options =
        Except.ok (PIDController.new Kp Ki Kd options)) ∧
    (PIDController.new Kp Ki Kd options)._outputMin = options.outputMin.getD (-100) ∧
    (PIDController.new Kp Ki Kd options)._outputMax = options.outputMax.getD 100 ∧
    (PIDController.new Kp Ki Kd options)._alpha = options.alpha.getD (1 / 10) ∧
    (MechanicalSystem.construct params = Except.ok (MechanicalSystem.new params)) ∧
    (MechanicalSystem.new params)._inertia = params.inertia :=
  ⟨rfl, rfl, rfl, rfl, rfl, rfl⟩

/-- C9 at the failing input: on a new controller with `Kp = 1` and the default limits,
`update(200, 0, 1)` returns the clamped 100, and the immediately following `update(200, 0, 0)`
returns the unclamped sum 200 of the stored terms. -/
theorem update_zero_dt_after_saturation :
    ((PIDController.new 1 0 0 PIDOptions.empty).update 200 0 1).1 = 100 ∧
    (((PIDController.new 1 0 0 PIDOptions.empty).update 200 0 1).2.update 200 0 0).1 = 200 ∧
    (PIDController.new 1 0 0 PIDOptions.empty)._outputMin = -100 ∧
    (PIDController.new 1 0 0 PIDOptions.empty)._outputMax = 100 := by
  decide!

/-- C10: from the new controller (Kp = 3/2, Ki = 1/2, Kd = 7/2, limits −100 and 100,
alpha = 1/10) and the new plant (inertia 1, friction 1/5, load 20, at rest at position 0),
500 passes of the loop body with setpoint 80 and timestep 1/25 leave the plant position
between 78 and 82. -/
theorem damped_scenario_position_after_500 :
    78 ≤ (SimulationApp.iterate (1 / 25) 500 dampedScenario).plant.state.position ∧
    (SimulationApp.iterate (1 / 25) 500 dampedScenario).plant.state.position ≤ 82 := by
  decide!

end PidSimulator
